import Mathlib

/-
Verification development for the Electronics Lab Inventory Management System
(LIMS).  The definitions below are a shallow embedding of the inventory-ledger,
alerting, notification and permission logic of the repository:

  * backend/models/Notification.js (Notification schema methods/statics and the
    Component schema virtuals/methods bundled in the same file),
  * backend/routes/movements.js (inward / outward / bulk-update routes),
  * backend/routes/notifications.js (listing, mark-read, check-alerts routes),
  * backend/middleware/auth.js and js/auth.js (permission resolution).

Machine numbers are modelled as Int (JS numbers used integrally throughout the
core logic); timestamps are Int milliseconds since the epoch, matching
Date.now() arithmetic.  Each definition carries a comment naming the source
location it is translated from.
-/

namespace LIMS

/-- Milliseconds per day, the constant 24 * 60 * 60 * 1000 used throughout the
source for day arithmetic. -/
def msPerDay : Int := 86400000

/-- Math.ceil(d / 86400000) on integer millisecond differences: for the
positive divisor 86400000, the rational ceiling of d / 86400000 equals the
floor of (d + 86400000 - 1) / 86400000, and Int division in Lean is floor
division. -/
def ceilDayDiv (d : Int) : Int := (d + msPerDay - 1) / msPerDay

/-- Lexicographic comparison of character lists by code point, the order
MongoDB uses when sorting a string-typed field (relevant to the
sort on the string field priority in notification listing). -/
def charListLt : List Char → List Char → Bool
  | [], [] => false
  | [], _ :: _ => true
  | _ :: _, [] => false
  | a :: as, b :: bs => if a < b then true else if b < a then false else charListLt as bs

/-- String comparison by code-point order (MongoDB string sort order). -/
def strLt (a b : String) : Bool := charListLt a.data b.data

/-- Movement type enum from the movement sub-schema in
backend/models/Notification.js (movementSchema, enum inward/outward). -/
inductive MvType
  | inward
  | outward
deriving DecidableEq

/-- A stock movement, from movementSchema in backend/models/Notification.js:
type, quantity (min 1 enforced by the schema at save time), user reference and
cached display name, reason, project, optional notes, and the timestamps
created by mongoose (createdAt). -/
structure Movement where
  type : MvType
  quantity : Int
  user : String
  userName : String
  reason : String
  project : String
  notes : String
  createdAt : Int
deriving DecidableEq

/-- A component record, from componentSchema in
backend/models/Notification.js.  Fields not used by any of the claims
(manufacturer, description, category, location, unitPrice, datasheetLink,
createdBy, lastUpdatedBy) are omitted; quantity and criticalLowThreshold carry
a schema minimum of 0, movements is the embedded movement list, createdAt is
the mongoose timestamp, isActive the soft-delete flag (default true). -/
structure Component where
  id : String
  name : String
  partNumber : String
  quantity : Int
  criticalLowThreshold : Int
  movements : List Movement
  createdAt : Int
  isActive : Bool
deriving DecidableEq

/-- The stockStatus virtual of componentSchema
(backend/models/Notification.js): out_of_stock if quantity ≤ 0, low_stock if
quantity ≤ criticalLowThreshold, else in_stock.  The same ladder appears in
ComponentsManager.getStockStatus on the browser side. -/
def getStockStatus (quantity criticalLowThreshold : Int) : String :=
  if quantity ≤ 0 then "out_of_stock"
  else if quantity ≤ criticalLowThreshold then "low_stock"
  else "in_stock"

/-- stockStatus as a virtual on the component. -/
def Component.stockStatus (c : Component) : String :=
  getStockStatus c.quantity c.criticalLowThreshold

/-- The ageInDays virtual: Math.ceil(|now - createdAt| / msPerDay). -/
def Component.ageInDays (now : Int) (c : Component) : Int :=
  ceilDayDiv |now - c.createdAt|

/-- Latest createdAt among a list of movements.  The source sorts the list by
createdAt descending and takes the first element, i.e. the maximum
createdAt. -/
def maxCreatedAt : List Movement → Int
  | [] => 0
  | [m] => m.createdAt
  | m :: m2 :: ms => max m.createdAt (maxCreatedAt (m2 :: ms))

/-- componentSchema.methods.isOldStock (backend/models/Notification.js): with
no movements, judged by ageInDays > thresholdDays; with movements but no
outward movements, likewise; otherwise Math.ceil((now - lastOutward) /
msPerDay) > thresholdDays where lastOutward is the most recent outward
movement.  The route default for thresholdDays is 90. -/
def Component.isOldStock (now : Int) (c : Component) (thresholdDays : Int) : Bool :=
  if c.movements.isEmpty then decide (c.ageInDays now > thresholdDays)
  else
    let outwardMovements := c.movements.filter fun m => m.type == MvType.outward
    if outwardMovements.isEmpty then decide (c.ageInDays now > thresholdDays)
    else
      let daysSinceLastOutward := ceilDayDiv (now - maxCreatedAt outwardMovements)
      decide (daysSinceLastOutward > thresholdDays)

/-- componentSchema.methods.addMovement: push the movement, then add the
quantity for inward, or set quantity to Math.max(0, quantity - moved) for
outward.  Note the clamping at 0 here; all route-level callers check stock
sufficiency before calling this method. -/
def Component.addMovement (c : Component) (m : Movement) : Component :=
  { c with
    movements := c.movements ++ [m]
    quantity :=
      match m.type with
      | MvType.inward => c.quantity + m.quantity
      | MvType.outward => max 0 (c.quantity - m.quantity) }

/-- One readBy entry of notificationSchema: user reference and read
timestamp. -/
structure ReadEntry where
  user : String
  readAt : Int
deriving DecidableEq

/-- A notification, from notificationSchema in
backend/models/Notification.js.  metadataComponentId is the
metadata.componentId field, the only metadata key consulted by the alert
deduplication queries; relatedComponent and relatedUser carry the
back-reference ids.  expiresAt defaults to creation time + 30 days; isActive
defaults to true; readBy defaults to empty. -/
structure Notification where
  type : String
  title : String
  message : String
  priority : String
  category : String
  relatedComponent : String
  relatedUser : String
  targetUsers : List String
  targetRoles : List String
  readBy : List ReadEntry
  isActive : Bool
  expiresAt : Int
  createdAt : Int
  metadataComponentId : String
deriving DecidableEq

/-- notificationSchema.methods.isReadBy: some readBy entry has this user. -/
def Notification.isReadBy (n : Notification) (userId : String) : Bool :=
  n.readBy.any fun r => r.user == userId

/-- notificationSchema.methods.markAsRead: find an existing readBy entry for
the user; if none, push (userId, now); return the notification. -/
def Notification.markAsRead (now : Int) (n : Notification) (userId : String) : Notification :=
  match n.readBy.find? (fun r => r.user == userId) with
  | some _ => n
  | none => { n with readBy := n.readBy ++ [⟨userId, now⟩] }

/-- Number of readBy entries a given user has on a notification. -/
def countReadsBy (n : Notification) (userId : String) : Nat :=
  (n.readBy.filter fun r => r.user == userId).length

/-- Notification.createLowStockNotification
(backend/models/Notification.js): a warning notification of category
low_stock, priority high when the quantity is exactly 0 and medium otherwise,
targeted at roles admin and user, with metadata.componentId set to the
component id.  expiresAt and createdAt come from the schema defaults at save
time (now + 30 days, now). -/
def createLowStockNotification (now : Int) (c : Component) : Notification :=
  { type := "warning"
    title := "Low Stock Alert"
    message := c.name ++ " (" ++ c.partNumber ++ ") is running low (" ++
      toString c.quantity ++ " remaining, threshold: " ++
      toString c.criticalLowThreshold ++ ")"
    priority := if c.quantity = 0 then "high" else "medium"
    category := "low_stock"
    relatedComponent := c.id
    relatedUser := ""
    targetUsers := []
    targetRoles := ["admin", "user"]
    readBy := []
    isActive := true
    expiresAt := now + 30 * msPerDay
    createdAt := now
    metadataComponentId := c.id }

/-- Notification.createStockMovementNotification
(backend/models/Notification.js): success for inward, info for outward,
priority low, category stock_movement, targeted at role admin. -/
def createStockMovementNotification (now : Int) (c : Component) (m : Movement)
    (userId userName : String) : Notification :=
  { type := if m.type == MvType.inward then "success" else "info"
    title := "Stock Movement"
    message := toString m.quantity ++ " units of " ++ c.name ++
      (if m.type == MvType.inward then " added to" else " removed from") ++
      " inventory by " ++ userName ++ " for " ++ m.project
    priority := "low"
    category := "stock_movement"
    relatedComponent := c.id
    relatedUser := userId
    targetUsers := []
    targetRoles := ["admin"]
    readBy := []
    isActive := true
    expiresAt := now + 30 * msPerDay
    createdAt := now
    metadataComponentId := c.id }

/-- Error outcomes of the movement routes (backend/routes/movements.js):
express-validator failure (400), component absent or inactive (404), and the
insufficient-stock rejection of the outward route (400, no partial
fulfilment). -/
inductive MoveError
  | validationFailed
  | componentNotFound
  | insufficientStock
deriving DecidableEq

/-- The per-component movement application performed by the inward and
outward routes (backend/routes/movements.js): the validators require a
positive integer quantity and non-empty reason and project; the outward path
additionally rejects with the insufficient-stock error when
component.quantity < quantity; on success the movement is appended and the
quantity updated in the one addMovement step (movement and quantity update
are saved together). -/
def applyMovement (c : Component) (m : Movement) : Except MoveError Component :=
  if m.quantity < 1 ∨ m.reason = "" ∨ m.project = "" then Except.error MoveError.validationFailed
  else
    match m.type with
    | MvType.inward => Except.ok (c.addMovement m)
    | MvType.outward =>
      if c.quantity < m.quantity then Except.error MoveError.insufficientStock
      else Except.ok (c.addMovement m)

/-- The component state after one request: the updated component on success,
the unchanged component when the route aborted with an error (the route
returns before any save). -/
def applyReq (c : Component) (m : Movement) : Component :=
  match applyMovement c m with
  | Except.ok c2 => c2
  | Except.error _ => c

/-- The component state after a sequence of movement requests. -/
def applyAll (c : Component) (ms : List Movement) : Component :=
  ms.foldl applyReq c

/-- Sum of the quantities of the inward movements in a history. -/
def sumInward (ms : List Movement) : Int :=
  ((ms.filter fun m => m.type == MvType.inward).map Movement.quantity).sum

/-- Sum of the quantities of the outward movements in a history. -/
def sumOutward (ms : List Movement) : Int :=
  ((ms.filter fun m => m.type == MvType.outward).map Movement.quantity).sum

/-- Component.findOne with _id and isActive true, as used by all movement
routes. -/
def findActiveComponent (comps : List Component) (componentId : String) : Option Component :=
  comps.find? fun c => c.id == componentId && c.isActive

/-- Persisting a saved component back into the store (the document with the
same id is replaced). -/
def saveComponent (comps : List Component) (c2 : Component) : List Component :=
  comps.map fun c => if c.id == c2.id then c2 else c

/-- Request body of POST /api/movements/outward and /inward. -/
structure MovementRequest where
  componentId : String
  quantity : Int
  reason : String
  project : String
  notes : String
deriving DecidableEq

/-- The outward movement record built by POST /api/movements/outward from the
request body and the authenticated user. -/
def outwardMovementOf (now : Int) (userId userName : String)
    (r : MovementRequest) : Movement :=
  { type := MvType.outward
    quantity := r.quantity
    user := userId
    userName := userName
    reason := r.reason
    project := r.project
    notes := r.notes
    createdAt := now }

/-- POST /api/movements/outward (backend/routes/movements.js): validate,
find the active component, reject with the insufficient-stock error when
component.quantity < quantity, otherwise append the outward movement via
addMovement, save, create and save a stock_movement notification, and then —
whenever the new quantity is at or below criticalLowThreshold —
unconditionally create and save a low-stock notification (no deduplication
query against existing notifications on this path).  Returns the updated
component store and notification store. -/
def postOutward (now : Int) (userId userName : String)
    (comps : List Component) (store : List Notification)
    (r : MovementRequest) : Except MoveError (List Component × List Notification) :=
  if r.quantity < 1 ∨ r.reason = "" ∨ r.project = "" then Except.error MoveError.validationFailed
  else
    match findActiveComponent comps r.componentId with
    | none => Except.error MoveError.componentNotFound
    | some component =>
      if component.quantity < r.quantity then Except.error MoveError.insufficientStock
      else
        let movement := outwardMovementOf now userId userName r
        let c2 := component.addMovement movement
        let movementNotification := createStockMovementNotification now c2 movement userId userName
        let store1 := store ++ [movementNotification]
        let store2 :=
          if c2.quantity ≤ c2.criticalLowThreshold
          then store1 ++ [createLowStockNotification now c2]
          else store1
        Except.ok (saveComponent comps c2, store2)

/-- System state transition of the outward route: on an error response the
stores are untouched. -/
def stepOutward (now : Int) (userId userName : String) (r : MovementRequest)
    (s : List Component × List Notification) : List Component × List Notification :=
  match postOutward now userId userName s.1 s.2 r with
  | Except.ok s2 => s2
  | Except.error _ => s

/-- Number of low_stock notifications in a store. -/
def countLowStock (store : List Notification) : Nat :=
  (store.filter fun n => n.category == "low_stock").length

/-- One item of the POST /api/movements/bulk-update request: signed quantity
(positive = inward, negative = outward) and a per-item reason. -/
structure BulkItem where
  componentId : String
  quantity : Int
  reason : String
deriving DecidableEq

/-- One entry of the successful list in the bulk-update response. -/
structure BulkSuccess where
  componentId : String
  oldQuantity : Int
  newQuantity : Int
  movementType : MvType
  movementQuantity : Int
deriving DecidableEq

/-- One entry of the failed list in the bulk-update response. -/
structure BulkFailure where
  componentId : String
  errorMessage : String
deriving DecidableEq

/-- Aggregate state threaded through the bulk-update loop: the component
store plus the successful and failed lists accumulated so far. -/
structure BulkState where
  components : List Component
  successful : List BulkSuccess
  failed : List BulkFailure
deriving DecidableEq

/-- One iteration of the bulk-update loop (backend/routes/movements.js):
find the active component (else record a not-found failure and continue);
for a negative quantity reject when |quantity| exceeds the stock (record the
failure, continue); derive the movement type from the sign and take the
absolute value; a movement quantity below the schema minimum of 1 makes the
save throw a validation error that the per-item catch records (quantity 0
reaches this case); otherwise apply addMovement, save, and record the
success.  update.reason falls back to the request-level reason when empty,
and the notes are the fixed bulk-update text. -/
def bulkStep (now : Int) (userId userName reason project : String)
    (st : BulkState) (u : BulkItem) : BulkState :=
  match findActiveComponent st.components u.componentId with
  | none =>
    { st with failed := st.failed ++ [⟨u.componentId, "Component not found"⟩] }
  | some component =>
    if u.quantity < 0 ∧ component.quantity < |u.quantity| then
      { st with failed := st.failed ++ [⟨u.componentId, "Insufficient stock"⟩] }
    else
      let movementType := if u.quantity > 0 then MvType.inward else MvType.outward
      let movementQuantity := |u.quantity|
      if movementQuantity < 1 then
        { st with failed := st.failed ++ [⟨u.componentId, "Validation failed"⟩] }
      else
        let movement : Movement :=
          { type := movementType, quantity := movementQuantity, user := userId
            userName := userName
            reason := if u.reason = "" then reason else u.reason
            project := project, notes := "Bulk update operation", createdAt := now }
        let c2 := component.addMovement movement
        { components := saveComponent st.components c2
          successful := st.successful ++
            [⟨u.componentId, component.quantity, c2.quantity, movementType, movementQuantity⟩]
          failed := st.failed }

/-- POST /api/movements/bulk-update: fold the per-item step over the updates
list starting from empty result lists.  The route body creates no
notifications, so the notification store does not appear in this
operation. -/
def bulkUpdate (now : Int) (userId userName reason project : String)
    (comps : List Component) (updates : List BulkItem) : BulkState :=
  updates.foldl (bulkStep now userId userName reason project) ⟨comps, [], []⟩

/-- The bulk-update route viewed together with the notification store: the
route body contains no notification creation, so the store passes through
unchanged. -/
def bulkUpdateRoute (now : Int) (userId userName reason project : String)
    (comps : List Component) (store : List Notification)
    (updates : List BulkItem) : BulkState × List Notification :=
  (bulkUpdate now userId userName reason project comps updates, store)

/-- The deduplication query of POST /api/notifications/check-alerts for low
stock (backend/routes/notifications.js): an existing notification of
category low_stock for this component, created within the last 24 hours,
with isActive true.  The query does not constrain expiresAt. -/
def hasRecentLowStock (now : Int) (store : List Notification) (c : Component) : Bool :=
  store.any fun n =>
    n.category == "low_stock" && n.metadataComponentId == c.id &&
    decide (now - msPerDay ≤ n.createdAt) && n.isActive

/-- The low-stock half of POST /api/notifications/check-alerts: select the
active components with quantity ≤ criticalLowThreshold, and for each, create
and save a low-stock notification unless the deduplication query finds a
recent one.  Creations earlier in the same pass are visible to later
queries, so the store is threaded through the fold. -/
def checkLowStockAlerts (now : Int) (components : List Component)
    (store : List Notification) : List Notification :=
  (components.filter fun c => c.isActive && decide (c.quantity ≤ c.criticalLowThreshold)).foldl
    (fun st c =>
      if hasRecentLowStock now st c then st
      else st ++ [createLowStockNotification now c])
    store

/-- The targeting-and-liveness filter of GET /api/notifications and of
Notification.getNotificationsForUser: isActive, not yet expired, and the
user is in targetUsers or their role is in targetRoles. -/
def visibleTo (now : Int) (userId userRole : String) (n : Notification) : Bool :=
  n.isActive && decide (now < n.expiresAt) &&
    (n.targetUsers.contains userId || n.targetRoles.contains userRole)

/-- The optional query filters of GET /api/notifications: exact matches on
type, category and priority when given, and for unreadOnly the requirement
that no readBy entry belongs to the user. -/
def matchesFilters (type? category? priority? : Option String) (unreadOnly : Bool)
    (userId : String) (n : Notification) : Bool :=
  (match type? with | some t => n.type == t | none => true) &&
  (match category? with | some cg => n.category == cg | none => true) &&
  (match priority? with | some p => n.priority == p | none => true) &&
  (if unreadOnly then !(n.readBy.any fun r => r.user == userId) else true)

/-- The ordering applied by .sort with priority -1 and createdAt -1: priority
descending in MongoDB string order (code-point comparison on the stored
strings high, low, medium), ties by createdAt descending.  notifBefore a b
holds when a sorts no later than b. -/
def notifBefore (a b : Notification) : Bool :=
  strLt b.priority a.priority ||
    (a.priority == b.priority && decide (b.createdAt ≤ a.createdAt))

/-- Insertion into a sorted list under a boolean comparison. -/
def insertSorted (le : α → α → Bool) (x : α) : List α → List α
  | [] => [x]
  | y :: ys => if le x y then x :: y :: ys else y :: insertSorted le x ys

/-- Stable insertion sort under a boolean comparison, modelling the sorted
query result. -/
def sortByRel (le : α → α → Bool) : List α → List α
  | [] => []
  | x :: xs => insertSorted le x (sortByRel le xs)

/-- GET /api/notifications (backend/routes/notifications.js): filter the
store by liveness, targeting and the optional filters, sort with priority -1
and createdAt -1, then paginate with skip (page - 1) * limit and the given
limit (skip applies before limit). -/
def listNotifications (now : Int) (store : List Notification)
    (userId userRole : String) (type? category? priority? : Option String)
    (unreadOnly : Bool) (page limit : Nat) : List Notification :=
  (((sortByRel notifBefore
      (store.filter fun n =>
        visibleTo now userId userRole n &&
        matchesFilters type? category? priority? unreadOnly userId n)).drop
    ((page - 1) * limit)).take limit)

/-- AuthManager.getRolePermissions (js/auth.js): the fixed role table with
fallback view.  User.getPermissions on the backend resolves through the same
table. -/
def getRolePermissions (role : String) : List String :=
  if role == "admin" then ["all"]
  else if role == "user" then ["view", "inward", "outward", "edit"]
  else if role == "researcher" then ["view", "search"]
  else if role == "engineer" then ["view", "outward", "reports"]
  else ["view"]

/-- AuthManager.hasPermission (js/auth.js) and the single-capability case of
the authorize middleware (backend/middleware/auth.js): the resolved set
contains all, or contains the requested capability. -/
def hasPermission (permissions : List String) (permission : String) : Bool :=
  permissions.contains "all" || permissions.contains permission

/-
Concrete instances, used to evaluate the operations at specific inputs.
sampleComponent carries the quantity 25 / threshold 50 data of the scenario in
the testable-properties section of the specification.
-/

/-- A fresh active component with quantity 25 and critical threshold 50. -/
def sampleComponent : Component :=
  { id := "comp-1"
    name := "Capacitor 100uF"
    partNumber := "C-100"
    quantity := 25
    criticalLowThreshold := 50
    movements := []
    createdAt := 0
    isActive := true }

/-- An inward movement of 30 units. -/
def sampleInward30 : Movement :=
  { type := MvType.inward
    quantity := 30
    user := "u-1"
    userName := "Alice"
    reason := "restock"
    project := "alpha"
    notes := ""
    createdAt := 1000 }

/-- An outward movement of 60 units. -/
def sampleOutward60 : Movement :=
  { sampleInward30 with
    type := MvType.outward
    quantity := 60
    createdAt := 2000 }

/-- The outward-route request asking for 60 units of sampleComponent. -/
def sampleRequest60 : MovementRequest :=
  { componentId := "comp-1"
    quantity := 60
    reason := "build"
    project := "alpha"
    notes := "" }

/-- sampleComponent after the inward movement of 30 (quantity 55). -/
def sampleComponent55 : Component :=
  Component.addMovement sampleComponent sampleInward30

/-- A low-stock component (quantity 2, threshold 5) for the alert-scan
evaluations. -/
def lowComponent : Component :=
  { sampleComponent with
    id := "comp-low"
    quantity := 2
    criticalLowThreshold := 5 }

/-- An active but already expired low_stock notification for lowComponent,
created one hour before the reference instant 1000000000: active, inside the
24-hour window, yet past its expiresAt. -/
def expiredLowNotification : Notification :=
  { type := "warning"
    title := "Low Stock Alert"
    message := "old alert"
    priority := "medium"
    category := "low_stock"
    relatedComponent := "comp-low"
    relatedUser := ""
    targetUsers := []
    targetRoles := ["admin", "user"]
    readBy := []
    isActive := true
    expiresAt := 999999999
    createdAt := 996400000
    metadataComponentId := "comp-low" }

/-- A high-priority notification visible to admins, created at time 100. -/
def listedHighNotification : Notification :=
  { expiredLowNotification with
    priority := "high"
    expiresAt := 1000000
    createdAt := 100
    metadataComponentId := "" }

/-- A medium-priority notification visible to admins, created at time 50
(older than listedHighNotification). -/
def listedMediumNotification : Notification :=
  { listedHighNotification with
    priority := "medium"
    createdAt := 50 }

/-- A notification nobody has read yet. -/
def unreadNotification : Notification :=
  { listedHighNotification with readBy := [] }

/-- A component created at epoch 0 whose only outward movement happened on
day 4; at the instant 95 * msPerDay it is 95 days old and its last outward
movement lies 91 days back. -/
def oldStockComponent : Component :=
  { sampleComponent with
    id := "comp-old"
    createdAt := 0
    movements :=
      [{ sampleOutward60 with quantity := 1, createdAt := 4 * 86400000 }] }

/-- A component for the repeated-outward evaluation: quantity 10,
threshold 9, so a single outward of 1 already lands at the threshold. -/
def drainComponent : Component :=
  { sampleComponent with
    id := "comp-drain"
    quantity := 10
    criticalLowThreshold := 9 }

/-- The outward-route request asking for 1 unit of drainComponent. -/
def drainRequest : MovementRequest :=
  { componentId := "comp-drain"
    quantity := 1
    reason := "use"
    project := "alpha"
    notes := "" }

/-- A bulk-update item naming a component id absent from the store. -/
def missingBulkItem : BulkItem :=
  { componentId := "comp-none"
    quantity := 5
    reason := "adjust" }

/-- A bulk-update item withdrawing more of sampleComponent than is in
stock. -/
def oversizedBulkItem : BulkItem :=
  { componentId := "comp-1"
    quantity := -60
    reason := "adjust" }

/-- A bulk-update item adding 5 units of sampleComponent. -/
def okBulkItem : BulkItem :=
  { componentId := "comp-1"
    quantity := 5
    reason := "adjust" }

/-
Helper lemmas.
-/

lemma sumInward_append (a b : List Movement) :
    sumInward (a ++ b) = sumInward a + sumInward b := by
  simp [sumInward, List.filter_append]

lemma sumOutward_append (a b : List Movement) :
    sumOutward (a ++ b) = sumOutward a + sumOutward b := by
  simp [sumOutward, List.filter_append]

lemma sumInward_single_inward (m : Movement) (ht : m.type = MvType.inward) :
    sumInward [m] = m.quantity := by
  simp [sumInward, ht]

lemma sumInward_single_outward (m : Movement) (ht : m.type = MvType.outward) :
    sumInward [m] = 0 := by
  simp [sumInward, ht]

lemma sumOutward_single_inward (m : Movement) (ht : m.type = MvType.inward) :
    sumOutward [m] = 0 := by
  simp [sumOutward, ht]

lemma sumOutward_single_outward (m : Movement) (ht : m.type = MvType.outward) :
    sumOutward [m] = m.quantity := by
  simp [sumOutward, ht]

/-- Ledger invariant of the route-level application: every run of applyAll
extends the movement history by some suffix whose signed sum is exactly the
quantity change, and keeps the quantity nonnegative. -/
lemma applyAll_delta (ms : List Movement) :
    ∀ c : Component, 0 ≤ c.quantity →
      ∃ δ : List Movement,
        (applyAll c ms).movements = c.movements ++ δ ∧
        (applyAll c ms).quantity = c.quantity + sumInward δ - sumOutward δ ∧
        0 ≤ (applyAll c ms).quantity := by
  induction ms with
  | nil =>
    intro c h
    exact ⟨[], by simp [applyAll], by simp [applyAll, sumInward, sumOutward], by
      simpa [applyAll] using h⟩
  | cons m rest ih =>
    intro c h
    have hstep : applyAll c (m :: rest) = applyAll (applyReq c m) rest := rfl
    by_cases hv : m.quantity < 1 ∨ m.reason = "" ∨ m.project = ""
    · have hreq : applyReq c m = c := by
        simp [applyReq, applyMovement, hv]
      rw [hstep, hreq]
      exact ih c h
    · have hq1 : 1 ≤ m.quantity := by
        rcases not_or.mp hv with ⟨h1, _⟩
        omega
      cases htype : m.type with
      | inward =>
        have hreq : applyReq c m = c.addMovement m := by
          simp [applyReq, applyMovement, hv, htype]
        have hq2 : (c.addMovement m).quantity = c.quantity + m.quantity := by
          simp [Component.addMovement, htype]
        have hmv2 : (c.addMovement m).movements = c.movements ++ [m] := rfl
        have h2 : 0 ≤ (c.addMovement m).quantity := by rw [hq2]; omega
        obtain ⟨δ, hm, hqq, hnn⟩ := ih (c.addMovement m) h2
        refine ⟨m :: δ, ?_, ?_, ?_⟩
        · rw [hstep, hreq, hm, hmv2]
          simp
        · rw [hstep, hreq, hqq, hq2]
          have e1 : m :: δ = [m] ++ δ := rfl
          rw [e1, sumInward_append, sumOutward_append,
            sumInward_single_inward m htype, sumOutward_single_inward m htype]
          ring
        · rw [hstep, hreq]; exact hnn
      | outward =>
        by_cases hqc : c.quantity < m.quantity
        · have hreq : applyReq c m = c := by
            simp [applyReq, applyMovement, hv, htype, hqc]
          rw [hstep, hreq]
          exact ih c h
        · have hreq : applyReq c m = c.addMovement m := by
            simp [applyReq, applyMovement, hv, htype, hqc]
          have hq2 : (c.addMovement m).quantity = c.quantity - m.quantity := by
            simp only [Component.addMovement, htype]
            exact max_eq_right (by omega)
          have hmv2 : (c.addMovement m).movements = c.movements ++ [m] := rfl
          have h2 : 0 ≤ (c.addMovement m).quantity := by rw [hq2]; omega
          obtain ⟨δ, hm, hqq, hnn⟩ := ih (c.addMovement m) h2
          refine ⟨m :: δ, ?_, ?_, ?_⟩
          · rw [hstep, hreq, hm, hmv2]
            simp
          · rw [hstep, hreq, hqq, hq2]
            have e1 : m :: δ = [m] ++ δ := rfl
            rw [e1, sumInward_append, sumOutward_append,
              sumInward_single_outward m htype, sumOutward_single_outward m htype]
            ring
          · rw [hstep, hreq]; exact hnn

/-- C1: for every component and every sequence of movements applied through
the movement-application operation, the quantity after the sequence equals
the initial quantity plus the sum of the quantities of the recorded inward
movements minus the sum of the quantities of the recorded outward movements,
and the quantity is never negative after any operation. -/
theorem ledger_replay_consistency (c : Component) (h0 : 0 ≤ c.quantity)
    (hm : c.movements = []) (ms : List Movement) :
    (applyAll c ms).quantity =
      c.quantity + sumInward (applyAll c ms).movements -
        sumOutward (applyAll c ms).movements ∧
    0 ≤ (applyAll c ms).quantity := by
  obtain ⟨δ, hmov, hq, hnn⟩ := applyAll_delta ms c h0
  rw [hmov, hm] at *
  simpa [hq] using hnn

/-- Witness for C1: the specification scenario, quantity 25, inward 30,
then an outward 60 that is rejected; the replayed sum gives the final
quantity 55 and stays nonnegative. -/
theorem ledger_replay_consistency_witness :
    (0 ≤ sampleComponent.quantity ∧ sampleComponent.movements = []) ∧
    ((applyAll sampleComponent [sampleInward30, sampleOutward60]).quantity =
        sampleComponent.quantity +
          sumInward (applyAll sampleComponent [sampleInward30, sampleOutward60]).movements -
          sumOutward (applyAll sampleComponent [sampleInward30, sampleOutward60]).movements ∧
      0 ≤ (applyAll sampleComponent [sampleInward30, sampleOutward60]).quantity) :=
  ⟨⟨by decide, by decide⟩,
    ledger_replay_consistency sampleComponent (by decide) (by decide) _⟩

/-- C2: an outward movement whose quantity exceeds the current stock fails
with the insufficient-stock error, and on that failure the component store
and the notification store are exactly as before the call: nothing is
clamped, nothing is partially fulfilled. -/
theorem outward_insufficient_rejected (now : Int) (userId userName : String)
    (comps : List Component) (store : List Notification) (r : MovementRequest)
    (c : Component)
    (hv : ¬(r.quantity < 1 ∨ r.reason = "" ∨ r.project = ""))
    (hfind : findActiveComponent comps r.componentId = some c)
    (hq : c.quantity < r.quantity) :
    postOutward now userId userName comps store r =
      Except.error MoveError.insufficientStock ∧
    stepOutward now userId userName r (comps, store) = (comps, store) := by
  have hpost : postOutward now userId userName comps store r =
      Except.error MoveError.insufficientStock := by
    simp [postOutward, hv, hfind, hq]
  exact ⟨hpost, by simp [stepOutward, hpost]⟩

/-- Witness for C2: asking for 60 units of the 55-unit component is rejected
with the insufficient-stock error and both stores are untouched. -/
theorem outward_insufficient_rejected_witness :
    (¬(sampleRequest60.quantity < 1 ∨ sampleRequest60.reason = "" ∨
        sampleRequest60.project = "") ∧
      findActiveComponent [sampleComponent55] sampleRequest60.componentId =
        some sampleComponent55 ∧
      sampleComponent55.quantity < sampleRequest60.quantity) ∧
    (postOutward 3000 "u-1" "Alice" [sampleComponent55] [] sampleRequest60 =
      Except.error MoveError.insufficientStock ∧
    stepOutward 3000 "u-1" "Alice" sampleRequest60 ([sampleComponent55], []) =
      ([sampleComponent55], [])) :=
  ⟨⟨by decide, by decide, by decide⟩,
    outward_insufficient_rejected 3000 "u-1" "Alice" [sampleComponent55] []
      sampleRequest60 sampleComponent55 (by decide) (by decide) (by decide)⟩

/-- C3: getStockStatus is a pure function of quantity and
criticalLowThreshold: out_of_stock for quantity ≤ 0, low_stock for
0 < quantity ≤ threshold, in_stock otherwise; at the boundary, a positive
quantity equal to the threshold is low_stock, threshold + 1 is in_stock, and
0 is out_of_stock. -/
theorem getStockStatus_pure (q t : Int) (ht : 0 ≤ t) :
    (q ≤ 0 → getStockStatus q t = "out_of_stock") ∧
    (0 < q → q ≤ t → getStockStatus q t = "low_stock") ∧
    (t < q → getStockStatus q t = "in_stock") ∧
    (0 < t → getStockStatus t t = "low_stock") ∧
    getStockStatus (t + 1) t = "in_stock" ∧
    getStockStatus 0 t = "out_of_stock" := by
  refine ⟨?_, ?_, ?_, ?_, ?_, ?_⟩ <;>
    first
      | (intro h; unfold getStockStatus; split_ifs <;> first | rfl | omega)
      | (intro h1 h2; unfold getStockStatus; split_ifs <;> first | rfl | omega)
      | (unfold getStockStatus; split_ifs <;> first | rfl | omega)

/-- Witness for C3 at threshold 50: quantity 25 is low stock, 50 is low
stock, 51 is in stock, 0 is out of stock. -/
theorem getStockStatus_pure_witness :
    (0 ≤ (50 : Int)) ∧
    getStockStatus 25 50 = "low_stock" ∧
    getStockStatus 50 50 = "low_stock" ∧
    getStockStatus 51 50 = "in_stock" ∧
    getStockStatus 0 50 = "out_of_stock" :=
  ⟨by decide,
    (getStockStatus_pure 25 50 (by decide)).2.1 (by decide) (by decide),
    (getStockStatus_pure 50 50 (by decide)).2.2.2.1 (by decide),
    by
      have h := (getStockStatus_pure 51 50 (by decide)).2.2.1 (by decide)
      exact h,
    (getStockStatus_pure 0 50 (by decide)).1 (by decide)⟩

/-- A single-component low-stock scan step: for an active component at or
below its threshold, the store either stays unchanged (recent notification
found) or gains exactly the new low-stock notification. -/
lemma checkLowStock_single (now : Int) (c : Component) (st : List Notification)
    (hA : c.isActive = true) (hq : c.quantity ≤ c.criticalLowThreshold) :
    checkLowStockAlerts now [c] st =
      if hasRecentLowStock now st c then st
      else st ++ [createLowStockNotification now c] := by
  have hp : (c.isActive && decide (c.quantity ≤ c.criticalLowThreshold)) = true := by
    simp [hA, hq]
  simp [checkLowStockAlerts, hp]

/-- Counterexample for C4: the deduplication query of the low-stock scan
never consults expiresAt.  Here the store holds one low_stock notification
for the component that is active and created within the last 24 hours but
already expired; no active, non-expired notification exists, yet the scan
creates nothing. -/
theorem scan_with_expired_alert_creates_nothing :
    (∀ n ∈ [expiredLowNotification],
      ¬(n.isActive = true ∧ (1000000000 : Int) < n.expiresAt ∧
        n.category = "low_stock" ∧ n.metadataComponentId = lowComponent.id ∧
        (1000000000 : Int) - msPerDay ≤ n.createdAt)) ∧
    lowComponent.isActive = true ∧
    lowComponent.quantity ≤ lowComponent.criticalLowThreshold ∧
    checkLowStockAlerts 1000000000 [lowComponent] [expiredLowNotification] =
      [expiredLowNotification] := by
  decide

/-- C4 (amended): for an active component with quantity ≤ threshold, the
low-stock scan creates a new low_stock notification exactly when no active
low_stock notification for that component created within the last 24 hours
exists (expiry is not consulted); the created notification has priority high
when the quantity is 0 and medium otherwise; and a second scan within 24
hours of a first scan that created the notification creates nothing
further, leaving exactly one notification. -/
theorem scanLowStock_dedup (now now2 : Int) (c : Component)
    (st : List Notification)
    (hA : c.isActive = true) (hq : c.quantity ≤ c.criticalLowThreshold)
    (h12 : now ≤ now2) (h24 : now2 ≤ now + msPerDay) :
    (hasRecentLowStock now st c = true → checkLowStockAlerts now [c] st = st) ∧
    (hasRecentLowStock now st c = false →
      checkLowStockAlerts now [c] st = st ++ [createLowStockNotification now c]) ∧
    (createLowStockNotification now c).priority =
      (if c.quantity = 0 then "high" else "medium") ∧
    (hasRecentLowStock now st c = false →
      checkLowStockAlerts now2 [c] (checkLowStockAlerts now [c] st) =
        st ++ [createLowStockNotification now c]) := by
  have hs := checkLowStock_single now c st hA hq
  refine ⟨?_, ?_, rfl, ?_⟩
  · intro h
    simp [hs, h]
  · intro h
    simp [hs, h]
  · intro h
    have hfirst : checkLowStockAlerts now [c] st =
        st ++ [createLowStockNotification now c] := by simp [hs, h]
    have h2 : hasRecentLowStock now2 (st ++ [createLowStockNotification now c]) c = true := by
      simp only [hasRecentLowStock, List.any_append, Bool.or_eq_true, List.any_cons,
        List.any_nil, Bool.or_false, createLowStockNotification]
      refine Or.inr ?_
      simp
      omega
    rw [hfirst, checkLowStock_single now2 c _ hA hq, if_pos h2]

/-- Witness for C4: scanning the low component against an empty store
creates exactly one notification, and a second scan 5 ms later adds
nothing. -/
theorem scanLowStock_dedup_witness :
    (lowComponent.isActive = true ∧
      lowComponent.quantity ≤ lowComponent.criticalLowThreshold ∧
      (0 : Int) ≤ 5 ∧ (5 : Int) ≤ 0 + msPerDay ∧
      hasRecentLowStock 0 [] lowComponent = false) ∧
    checkLowStockAlerts 0 [lowComponent] [] =
      [createLowStockNotification 0 lowComponent] ∧
    checkLowStockAlerts 5 [lowComponent] (checkLowStockAlerts 0 [lowComponent] []) =
      [createLowStockNotification 0 lowComponent] :=
  ⟨⟨rfl, by decide, by decide, by decide, by decide⟩,
    by
      simpa using
        (scanLowStock_dedup 0 5 lowComponent [] rfl (by decide) (by decide)
          (by decide)).2.1 (by decide),
    by
      simpa using
        (scanLowStock_dedup 0 5 lowComponent [] rfl (by decide) (by decide)
          (by decide)).2.2.2 (by decide)⟩

/-- C5 evaluation at the failing input: two notifications, both active,
unexpired and targeted at the requesting admin, one of priority high (and
newer), one of priority medium (and older).  The listing sorts the string
field priority descending in MongoDB string order, where the string medium
exceeds the string high, so the medium notification is returned first —
against the claimed high-before-medium order. -/
theorem listNotifications_string_priority_order :
    listNotifications 500 [listedHighNotification, listedMediumNotification]
        "u-1" "admin" none none none false 1 20 =
      [listedMediumNotification, listedHighNotification] ∧
    listedHighNotification.priority = "high" ∧
    listedMediumNotification.priority = "medium" ∧
    visibleTo 500 "u-1" "admin" listedHighNotification = true ∧
    visibleTo 500 "u-1" "admin" listedMediumNotification = true ∧
    listedMediumNotification.createdAt < listedHighNotification.createdAt := by
  decide

/-- C7: the fixed role→capability table of getRolePermissions with the view
fallback for unknown roles, and hasPermission true exactly when the resolved
set contains all or the requested capability. -/
theorem role_permission_table :
    getRolePermissions "admin" = ["all"] ∧
    (∀ p : String, p ∈ getRolePermissions "user" ↔
      p ∈ (["view", "edit", "inward", "outward"] : List String)) ∧
    getRolePermissions "researcher" = ["view", "search"] ∧
    getRolePermissions "engineer" = ["view", "outward", "reports"] ∧
    (∀ role : String,
      role ∉ (["admin", "user", "researcher", "engineer"] : List String) →
      getRolePermissions role = ["view"]) ∧
    (∀ (perms : List String) (cap : String),
      hasPermission perms cap = true ↔ "all" ∈ perms ∨ cap ∈ perms) := by
  refine ⟨rfl, ?_, rfl, rfl, ?_, ?_⟩
  · intro p
    simp [getRolePermissions]
    tauto
  · intro role h
    simp only [List.mem_cons, List.not_mem_nil, or_false, not_or] at h
    obtain ⟨h1, h2, h3, h4⟩ := h
    have e1 : (role == "admin") = false := beq_eq_false_iff_ne.mpr h1
    have e2 : (role == "user") = false := beq_eq_false_iff_ne.mpr h2
    have e3 : (role == "researcher") = false := beq_eq_false_iff_ne.mpr h3
    have e4 : (role == "engineer") = false := beq_eq_false_iff_ne.mpr h4
    simp [getRolePermissions, e1, e2, e3, e4]
  · intro perms cap
    simp [hasPermission]

/-- Witness for C7: membership of edit in the user set, the view fallback
for the unknown role guest, and hasPermission on a concrete set. -/
theorem role_permission_table_witness :
    ("edit" ∈ getRolePermissions "user" ↔
      "edit" ∈ (["view", "edit", "inward", "outward"] : List String)) ∧
    ("guest" ∉ (["admin", "user", "researcher", "engineer"] : List String) ∧
      getRolePermissions "guest" = ["view"]) ∧
    (hasPermission ["view", "search"] "search" = true ↔
      "all" ∈ (["view", "search"] : List String) ∨
        "search" ∈ (["view", "search"] : List String)) :=
  ⟨role_permission_table.2.1 "edit",
    ⟨by decide, role_permission_table.2.2.2.2.1 "guest" (by decide)⟩,
    role_permission_table.2.2.2.2.2 ["view", "search"] "search"⟩

lemma find?_none_of_count_zero (n : Notification) (u : String)
    (h : countReadsBy n u = 0) :
    n.readBy.find? (fun r => r.user == u) = none := by
  rw [List.find?_eq_none]
  intro x hx hpx
  have hmem : x ∈ n.readBy.filter (fun r => r.user == u) :=
    List.mem_filter.mpr ⟨hx, hpx⟩
  unfold countReadsBy at h
  rw [List.length_eq_zero] at h
  rw [h] at hmem
  exact absurd hmem (List.not_mem_nil x)

lemma markAsRead_of_found (now : Int) (n : Notification) (u : String)
    (h : n.readBy.find? (fun r => r.user == u) ≠ none) :
    Notification.markAsRead now n u = n := by
  unfold Notification.markAsRead
  cases hf : n.readBy.find? (fun r => r.user == u) with
  | none => exact absurd hf h
  | some r => rfl

lemma find?_ne_none_of_count_pos (n : Notification) (u : String)
    (h : countReadsBy n u ≠ 0) :
    n.readBy.find? (fun r => r.user == u) ≠ none := by
  intro hf
  apply h
  unfold countReadsBy
  rw [List.length_eq_zero, List.filter_eq_nil]
  intro a ha
  exact List.find?_eq_none.mp hf a ha

/-- C8: markAsRead appends a (user, now) entry only when the user has no
entry yet, a second call is the identity, and any positive number of calls
starting from an unread notification leaves exactly one readBy entry for the
user. -/
theorem markAsRead_idempotent (now now2 : Int) (n : Notification) (u : String) :
    (n.readBy.find? (fun r => r.user == u) = none →
      (Notification.markAsRead now n u).readBy = n.readBy ++ [⟨u, now⟩]) ∧
    Notification.markAsRead now2 (Notification.markAsRead now n u) u =
      Notification.markAsRead now n u ∧
    (countReadsBy n u = 0 → ∀ k : Nat, 1 ≤ k →
      countReadsBy ((fun m => Notification.markAsRead now m u)^[k] n) u = 1) := by
  refine ⟨?_, ?_, ?_⟩
  · intro hf
    unfold Notification.markAsRead
    rw [hf]
  · cases hf : n.readBy.find? (fun r => r.user == u) with
    | some r =>
      have hne : n.readBy.find? (fun r => r.user == u) ≠ none := by
        rw [hf]; exact fun hc => Option.noConfusion hc
      rw [markAsRead_of_found now n u hne, markAsRead_of_found now2 n u hne]
    | none =>
      have h1 : Notification.markAsRead now n u =
          { n with readBy := n.readBy ++ [⟨u, now⟩] } := by
        unfold Notification.markAsRead
        rw [hf]
      apply markAsRead_of_found
      rw [h1]
      simp only [List.find?_append, hf, Option.none_orElse]
      simp
  · intro h0 k hk
    induction k with
    | zero => omega
    | succ k ih =>
      rw [Function.iterate_succ_apply']
      by_cases hk0 : k = 0
      · subst hk0
        simp only [Function.iterate_zero, id_eq]
        have hf := find?_none_of_count_zero n u h0
        have h1 : Notification.markAsRead now n u =
            { n with readBy := n.readBy ++ [⟨u, now⟩] } := by
          unfold Notification.markAsRead
          rw [hf]
        rw [h1]
        unfold countReadsBy at h0 ⊢
        simp [List.filter_append, h0]
      · have hk1 : 1 ≤ k := by omega
        have hcount := ih hk1
        have hfix := markAsRead_of_found now
          ((fun m => Notification.markAsRead now m u)^[k] n) u
          (find?_ne_none_of_count_pos _ u (by rw [hcount]; omega))
        simpa [hfix] using hcount

/-- Witness for C8: on a notification with empty readBy, one call adds the
single entry, a repeated call changes nothing, and three calls leave exactly
one entry. -/
theorem markAsRead_idempotent_witness :
    (unreadNotification.readBy.find? (fun r => r.user == "u-9") = none ∧
      countReadsBy unreadNotification "u-9" = 0 ∧ (1 : Nat) ≤ 3) ∧
    (Notification.markAsRead 7 unreadNotification "u-9").readBy =
      unreadNotification.readBy ++ [⟨"u-9", 7⟩] ∧
    Notification.markAsRead 8 (Notification.markAsRead 7 unreadNotification "u-9") "u-9" =
      Notification.markAsRead 7 unreadNotification "u-9" ∧
    countReadsBy ((fun m => Notification.markAsRead 7 m "u-9")^[3] unreadNotification) "u-9" = 1 :=
  ⟨⟨by decide, by decide, by decide⟩,
    (markAsRead_idempotent 7 8 unreadNotification "u-9").1 (by decide),
    (markAsRead_idempotent 7 8 unreadNotification "u-9").2.1,
    (markAsRead_idempotent 7 8 unreadNotification "u-9").2.2 (by decide) 3 (by decide)⟩

/-- Each bulk-update step only appends to the accumulated result lists; the
component store it produces depends only on the incoming component store. -/
lemma bulkStep_decompose (now : Int) (uid uname reason project : String)
    (st : BulkState) (u : BulkItem) :
    bulkStep now uid uname reason project st u =
      { components :=
          (bulkStep now uid uname reason project ⟨st.components, [], []⟩ u).components
        successful := st.successful ++
          (bulkStep now uid uname reason project ⟨st.components, [], []⟩ u).successful
        failed := st.failed ++
          (bulkStep now uid uname reason project ⟨st.components, [], []⟩ u).failed } := by
  unfold bulkStep
  cases hf : findActiveComponent st.components u.componentId with
  | none => simp
  | some component =>
    by_cases h1 : u.quantity < 0 ∧ component.quantity < |u.quantity|
    · simp [h1]
    · by_cases h2 : |u.quantity| < 1
      · simp [h1, h2]
      · simp [h1, h2]

/-- Each bulk-update step accounts for exactly one item: it grows the
successful list or the failed list by one entry. -/
lemma bulkStep_count (now : Int) (uid uname reason project : String)
    (st : BulkState) (u : BulkItem) :
    (bulkStep now uid uname reason project st u).successful.length +
      (bulkStep now uid uname reason project st u).failed.length =
      st.successful.length + st.failed.length + 1 := by
  unfold bulkStep
  cases hf : findActiveComponent st.components u.componentId with
  | none =>
    simp
    omega
  | some component =>
    by_cases h1 : u.quantity < 0 ∧ component.quantity < |u.quantity|
    · simp [h1]
      omega
    · by_cases h2 : |u.quantity| < 1
      · simp [h1, h2]
        omega
      · simp [h1, h2]
        omega

/-- Folding the bulk step over any accumulated state splits into the fold
from empty accumulators. -/
lemma bulkFold_decompose (now : Int) (uid uname reason project : String) :
    ∀ (updates : List BulkItem) (comps : List Component)
      (succ : List BulkSuccess) (fails : List BulkFailure),
      updates.foldl (bulkStep now uid uname reason project) ⟨comps, succ, fails⟩ =
        { components :=
            (updates.foldl (bulkStep now uid uname reason project) ⟨comps, [], []⟩).components
          successful := succ ++
            (updates.foldl (bulkStep now uid uname reason project) ⟨comps, [], []⟩).successful
          failed := fails ++
            (updates.foldl (bulkStep now uid uname reason project) ⟨comps, [], []⟩).failed } := by
  intro updates
  induction updates with
  | nil => intro comps succ fails; simp
  | cons u rest ih =>
    intro comps succ fails
    rw [List.foldl_cons, List.foldl_cons]
    rw [bulkStep_decompose now uid uname reason project ⟨comps, succ, fails⟩ u]
    rcases hB : bulkStep now uid uname reason project ⟨comps, [], []⟩ u with ⟨bc, bs, bf⟩
    dsimp only
    rw [ih bc (succ ++ bs) (fails ++ bf), ih bc bs bf]
    simp [List.append_assoc]

/-- C6: bulk update processes every item independently — the successes and
failures together account for every update, and an item that fails (component
not found, or insufficient stock for a negative quantity) contributes its
error entry while the remaining items are processed exactly as they would
have been without it. -/
theorem bulkUpdate_partial_failure (now : Int) (uid uname reason project : String) :
    (∀ (comps : List Component) (updates : List BulkItem),
      (bulkUpdate now uid uname reason project comps updates).successful.length +
        (bulkUpdate now uid uname reason project comps updates).failed.length =
        updates.length) ∧
    (∀ (comps : List Component) (u : BulkItem) (rest : List BulkItem),
      findActiveComponent comps u.componentId = none →
      bulkUpdate now uid uname reason project comps (u :: rest) =
        { components := (bulkUpdate now uid uname reason project comps rest).components
          successful := (bulkUpdate now uid uname reason project comps rest).successful
          failed := ⟨u.componentId, "Component not found"⟩ ::
            (bulkUpdate now uid uname reason project comps rest).failed }) ∧
    (∀ (comps : List Component) (u : BulkItem) (rest : List BulkItem) (c : Component),
      findActiveComponent comps u.componentId = some c →
      u.quantity < 0 → c.quantity < |u.quantity| →
      bulkUpdate now uid uname reason project comps (u :: rest) =
        { components := (bulkUpdate now uid uname reason project comps rest).components
          successful := (bulkUpdate now uid uname reason project comps rest).successful
          failed := ⟨u.componentId, "Insufficient stock"⟩ ::
            (bulkUpdate now uid uname reason project comps rest).failed }) := by
  refine ⟨?_, ?_, ?_⟩
  · intro comps updates
    suffices h : ∀ (us : List BulkItem) (st : BulkState),
        (us.foldl (bulkStep now uid uname reason project) st).successful.length +
          (us.foldl (bulkStep now uid uname reason project) st).failed.length =
          st.successful.length + st.failed.length + us.length by
      have := h updates ⟨comps, [], []⟩
      simpa [bulkUpdate] using this
    intro us
    induction us with
    | nil => intro st; simp
    | cons u rest ih =>
      intro st
      rw [List.foldl_cons]
      rw [ih (bulkStep now uid uname reason project st u)]
      rw [bulkStep_count]
      simp
      omega
  · intro comps u rest hf
    unfold bulkUpdate
    rw [List.foldl_cons]
    have hstep : bulkStep now uid uname reason project ⟨comps, [], []⟩ u =
        ⟨comps, [], [⟨u.componentId, "Component not found"⟩]⟩ := by
      unfold bulkStep
      rw [hf]
      simp
    rw [hstep, bulkFold_decompose]
    simp
  · intro comps u rest c hf hneg hins
    unfold bulkUpdate
    rw [List.foldl_cons]
    have hstep : bulkStep now uid uname reason project ⟨comps, [], []⟩ u =
        ⟨comps, [], [⟨u.componentId, "Insufficient stock"⟩]⟩ := by
      unfold bulkStep
      rw [hf]
      have hcond : u.quantity < 0 ∧ c.quantity < |u.quantity| := ⟨hneg, hins⟩
      simp [hcond]
    rw [hstep, bulkFold_decompose]
    simp

/-- Witness for C6: over the one-component store, a missing-component item,
an oversized withdrawal and a valid addition yield one success and two
failures, and the failing items leave processing of the rest intact. -/
theorem bulkUpdate_partial_failure_witness :
    ((bulkUpdate 0 "u-1" "Alice" "adjust" "alpha" [sampleComponent]
        [missingBulkItem, oversizedBulkItem, okBulkItem]).successful.length +
      (bulkUpdate 0 "u-1" "Alice" "adjust" "alpha" [sampleComponent]
        [missingBulkItem, oversizedBulkItem, okBulkItem]).failed.length = 3) ∧
    (findActiveComponent [sampleComponent] missingBulkItem.componentId = none ∧
      bulkUpdate 0 "u-1" "Alice" "adjust" "alpha" [sampleComponent]
          (missingBulkItem :: [okBulkItem]) =
        { components := (bulkUpdate 0 "u-1" "Alice" "adjust" "alpha"
            [sampleComponent] [okBulkItem]).components
          successful := (bulkUpdate 0 "u-1" "Alice" "adjust" "alpha"
            [sampleComponent] [okBulkItem]).successful
          failed := ⟨missingBulkItem.componentId, "Component not found"⟩ ::
            (bulkUpdate 0 "u-1" "Alice" "adjust" "alpha"
              [sampleComponent] [okBulkItem]).failed }) ∧
    (findActiveComponent [sampleComponent] oversizedBulkItem.componentId =
        some sampleComponent ∧
      oversizedBulkItem.quantity < 0 ∧
      sampleComponent.quantity < |oversizedBulkItem.quantity| ∧
      bulkUpdate 0 "u-1" "Alice" "adjust" "alpha" [sampleComponent]
          (oversizedBulkItem :: [okBulkItem]) =
        { components := (bulkUpdate 0 "u-1" "Alice" "adjust" "alpha"
            [sampleComponent] [okBulkItem]).components
          successful := (bulkUpdate 0 "u-1" "Alice" "adjust" "alpha"
            [sampleComponent] [okBulkItem]).successful
          failed := ⟨oversizedBulkItem.componentId, "Insufficient stock"⟩ ::
            (bulkUpdate 0 "u-1" "Alice" "adjust" "alpha"
              [sampleComponent] [okBulkItem]).failed }) :=
  ⟨(bulkUpdate_partial_failure 0 "u-1" "Alice" "adjust" "alpha").1 [sampleComponent]
      [missingBulkItem, oversizedBulkItem, okBulkItem],
    ⟨by decide,
      (bulkUpdate_partial_failure 0 "u-1" "Alice" "adjust" "alpha").2.1 [sampleComponent]
        missingBulkItem [okBulkItem] (by decide)⟩,
    ⟨by decide, by decide, by decide,
      (bulkUpdate_partial_failure 0 "u-1" "Alice" "adjust" "alpha").2.2 [sampleComponent]
        oversizedBulkItem [okBulkItem] sampleComponent (by decide) (by decide) (by decide)⟩⟩

lemma ceilDayDiv_gt_iff (d T : Int) : ceilDayDiv d > T ↔ d > T * msPerDay := by
  simp only [ceilDayDiv, msPerDay]
  omega

lemma maxCreatedAt_lt_iff (x : Int) :
    ∀ ms : List Movement, ms ≠ [] →
      (maxCreatedAt ms < x ↔ ∀ m ∈ ms, m.createdAt < x) := by
  intro ms
  induction ms with
  | nil => intro h; exact absurd rfl h
  | cons m rest ih =>
    intro _
    cases rest with
    | nil => simp [maxCreatedAt]
    | cons m2 rest2 =>
      have he : maxCreatedAt (m :: m2 :: rest2) =
          max m.createdAt (maxCreatedAt (m2 :: rest2)) := rfl
      rw [he, max_lt_iff]
      have hr := ih (by simp)
      constructor
      · rintro ⟨h1, h2⟩ mm hmm
        rcases List.mem_cons.mp hmm with h | h
        · rw [h]; exact h1
        · exact (hr.mp h2) mm h
      · intro hall
        exact ⟨hall m (by simp),
          hr.mpr fun mm hmm => hall mm (List.mem_cons_of_mem _ hmm)⟩

/-- C9: isOldStock is true exactly when no outward movement falls inside the
last thresholdDays; a component with no outward movements at all (in
particular one with no movements) is judged instead by its age since
creation exceeding thresholdDays, which under createdAt ≤ now is the same
cutoff now - thresholdDays * msPerDay. -/
theorem isOldStock_no_recent_outward (now : Int) (c : Component) (T : Int)
    (hc : c.createdAt ≤ now) :
    (c.movements.filter (fun m => m.type == MvType.outward) = [] →
      (Component.isOldStock now c T = true ↔
        c.createdAt < now - T * msPerDay)) ∧
    (c.movements.filter (fun m => m.type == MvType.outward) ≠ [] →
      (Component.isOldStock now c T = true ↔
        ∀ m ∈ c.movements, m.type = MvType.outward →
          m.createdAt < now - T * msPerDay)) := by
  have habs : |now - c.createdAt| = now - c.createdAt := abs_of_nonneg (by omega)
  have hage : (Component.ageInDays now c > T) ↔ c.createdAt < now - T * msPerDay := by
    rw [Component.ageInDays, habs, ceilDayDiv_gt_iff]
    omega
  constructor
  · intro hfil
    by_cases hm : c.movements.isEmpty
    · rw [Component.isOldStock, if_pos hm]
      rw [decide_eq_true_eq]
      exact hage
    · rw [Component.isOldStock, if_neg hm]
      simp only [hfil, List.isEmpty_nil, if_pos]
      rw [decide_eq_true_eq]
      exact hage
  · intro hfil
    have hm : ¬c.movements.isEmpty := by
      intro hempty
      rw [List.isEmpty_iff] at hempty
      rw [hempty] at hfil
      exact hfil rfl
    have hfe : (c.movements.filter (fun m => m.type == MvType.outward)).isEmpty = false := by
      rw [List.isEmpty_eq_false_iff_exists_mem]
      rcases List.exists_mem_of_ne_nil _ hfil with ⟨a, ha⟩
      exact ⟨a, ha⟩
    rw [Component.isOldStock, if_neg hm]
    simp only [hfe, Bool.false_eq_true, if_false, decide_eq_true_eq]
    rw [ceilDayDiv_gt_iff]
    have h1 : (now - maxCreatedAt (c.movements.filter (fun m => m.type == MvType.outward)) >
        T * msPerDay) ↔
        maxCreatedAt (c.movements.filter (fun m => m.type == MvType.outward)) <
          now - T * msPerDay := by omega
    rw [h1, maxCreatedAt_lt_iff (now - T * msPerDay) _ hfil]
    constructor
    · intro hall m hmem htype
      exact hall m (List.mem_filter.mpr ⟨hmem, by simp [htype]⟩)
    · intro hall m hmem
      rcases List.mem_filter.mp hmem with ⟨hmm, hpm⟩
      exact hall m hmm (by simpa using hpm)

/-- Witness for C9: the scenario component created 95 days before the
reference instant whose last outward movement lies 91 days back is old stock
at threshold 90. -/
theorem isOldStock_no_recent_outward_witness :
    (oldStockComponent.createdAt ≤ (8208000000 : Int) ∧
      oldStockComponent.movements.filter (fun m => m.type == MvType.outward) ≠ []) ∧
    Component.isOldStock 8208000000 oldStockComponent 90 = true :=
  ⟨⟨by decide, by decide⟩,
    ((isOldStock_no_recent_outward 8208000000 oldStockComponent 90 (by decide)).2
      (by decide)).mpr (by decide)⟩

lemma countLowStock_append (a b : List Notification) :
    countLowStock (a ++ b) = countLowStock a + countLowStock b := by
  simp [countLowStock, List.filter_append]

lemma countLowStock_stockMovement (now : Int) (c : Component) (m : Movement)
    (uid uname : String) :
    countLowStock [createStockMovementNotification now c m uid uname] = 0 := by
  have h : (("stock_movement" : String) == "low_stock") = false := by decide
  simp [countLowStock, createStockMovementNotification, h]

lemma countLowStock_lowNotif (now : Int) (c : Component) :
    countLowStock [createLowStockNotification now c] = 1 := by
  simp [countLowStock, createLowStockNotification]

/-- On a valid outward request against sufficient stock that lands at or
below the threshold, the outward route saves the updated component and
appends the stock-movement notification and then the low-stock notification
to whatever notification store is present. -/
lemma postOutward_low (now : Int) (uid uname : String) (comps : List Component)
    (store : List Notification) (r : MovementRequest) (c : Component)
    (hv : ¬(r.quantity < 1 ∨ r.reason = "" ∨ r.project = ""))
    (hfind : findActiveComponent comps r.componentId = some c)
    (hq : r.quantity ≤ c.quantity)
    (hlow : c.quantity - r.quantity ≤ c.criticalLowThreshold) :
    postOutward now uid uname comps store r = Except.ok
      (saveComponent comps (c.addMovement (outwardMovementOf now uid uname r)),
        (store ++ [createStockMovementNotification now
            (c.addMovement (outwardMovementOf now uid uname r))
            (outwardMovementOf now uid uname r) uid uname]) ++
          [createLowStockNotification now
            (c.addMovement (outwardMovementOf now uid uname r))]) := by
  have hql : ¬(c.quantity < r.quantity) := not_lt.mpr hq
  have hq2 : (c.addMovement (outwardMovementOf now uid uname r)).quantity =
      c.quantity - r.quantity := by
    show max 0 (c.quantity - r.quantity) = c.quantity - r.quantity
    exact max_eq_right (by omega)
  have hcond : (c.addMovement (outwardMovementOf now uid uname r)).quantity ≤
      (c.addMovement (outwardMovementOf now uid uname r)).criticalLowThreshold := by
    rw [hq2]
    exact hlow
  unfold postOutward
  rw [if_neg hv, hfind]
  dsimp only
  rw [if_neg hql, if_pos hcond]

/-- Draining a single-component store through the outward route N times,
each call valid and landing at or below the threshold, appends exactly one
low-stock notification per call. -/
lemma stepOutward_count (now : Int) (uid uname : String) (r : MovementRequest)
    (hv1 : 1 ≤ r.quantity) (hv2 : r.reason ≠ "") (hv3 : r.project ≠ "") :
    ∀ (N : Nat) (c : Component) (store : List Notification),
      r.componentId = c.id → c.isActive = true →
      (N : Int) * r.quantity ≤ c.quantity →
      c.quantity - r.quantity ≤ c.criticalLowThreshold →
      countLowStock (((stepOutward now uid uname r)^[N]) ([c], store)).2 =
        countLowStock store + N := by
  intro N
  induction N with
  | zero =>
    intro c store _ _ _ _
    simp
  | succ k ih =>
    intro c store hid hact hNq hlow
    have hv : ¬(r.quantity < 1 ∨ r.reason = "" ∨ r.project = "") := by
      push_neg
      exact ⟨by omega, hv2, hv3⟩
    have hfind : findActiveComponent [c] r.componentId = some c := by
      rw [hid]
      simp [findActiveComponent, hact]
    push_cast at hNq
    have hexp : ((k : Int) + 1) * r.quantity = (k : Int) * r.quantity + r.quantity := by
      ring
    rw [hexp] at hNq
    have hkq : (0 : Int) ≤ (k : Int) * r.quantity :=
      mul_nonneg (Int.natCast_nonneg k) (by omega)
    have hq : r.quantity ≤ c.quantity := by linarith
    have hpost := postOutward_low now uid uname [c] store r c hv hfind hq hlow
    have hstep : stepOutward now uid uname r ([c], store) =
        (saveComponent [c] (c.addMovement (outwardMovementOf now uid uname r)),
          (store ++ [createStockMovementNotification now
              (c.addMovement (outwardMovementOf now uid uname r))
              (outwardMovementOf now uid uname r) uid uname]) ++
            [createLowStockNotification now
              (c.addMovement (outwardMovementOf now uid uname r))]) := by
      simp [stepOutward, hpost]
    have hsave : saveComponent [c] (c.addMovement (outwardMovementOf now uid uname r)) =
        [c.addMovement (outwardMovementOf now uid uname r)] := by
      have hcid : (c.addMovement (outwardMovementOf now uid uname r)).id = c.id := rfl
      simp [saveComponent, hcid]
    have hq2 : (c.addMovement (outwardMovementOf now uid uname r)).quantity =
        c.quantity - r.quantity := by
      show max 0 (c.quantity - r.quantity) = c.quantity - r.quantity
      exact max_eq_right (by omega)
    rw [Function.iterate_succ_apply, hstep, hsave]
    rw [ih (c.addMovement (outwardMovementOf now uid uname r))
      ((store ++ [createStockMovementNotification now
          (c.addMovement (outwardMovementOf now uid uname r))
          (outwardMovementOf now uid uname r) uid uname]) ++
        [createLowStockNotification now
          (c.addMovement (outwardMovementOf now uid uname r))])
      (by rw [hid]; rfl) hact (by rw [hq2]; linarith)
      (by
        rw [hq2]
        show c.quantity - r.quantity - r.quantity ≤ c.criticalLowThreshold
        linarith)]
    rw [countLowStock_append, countLowStock_append, countLowStock_stockMovement,
      countLowStock_lowNotif]
    omega

/-- C10: a successful outward movement that lands at or below the threshold
appends exactly one low-stock notification to any notification store —
no deduplication query is made on this path — so N consecutive such
movements append N low-stock notifications, while the bulk-update route
never touches the notification store. -/
theorem outward_low_stock_no_dedup (now : Int) (uid uname : String)
    (r : MovementRequest)
    (hv1 : 1 ≤ r.quantity) (hv2 : r.reason ≠ "") (hv3 : r.project ≠ "") :
    (∀ (comps : List Component) (store : List Notification) (c : Component),
      findActiveComponent comps r.componentId = some c →
      r.quantity ≤ c.quantity →
      c.quantity - r.quantity ≤ c.criticalLowThreshold →
      postOutward now uid uname comps store r = Except.ok
        (saveComponent comps (c.addMovement (outwardMovementOf now uid uname r)),
          (store ++ [createStockMovementNotification now
              (c.addMovement (outwardMovementOf now uid uname r))
              (outwardMovementOf now uid uname r) uid uname]) ++
            [createLowStockNotification now
              (c.addMovement (outwardMovementOf now uid uname r))]) ∧
      countLowStock ((store ++ [createStockMovementNotification now
          (c.addMovement (outwardMovementOf now uid uname r))
          (outwardMovementOf now uid uname r) uid uname]) ++
        [createLowStockNotification now
          (c.addMovement (outwardMovementOf now uid uname r))]) =
        countLowStock store + 1) ∧
    (∀ (c : Component) (store : List Notification) (N : Nat),
      r.componentId = c.id → c.isActive = true →
      (N : Int) * r.quantity ≤ c.quantity →
      c.quantity - r.quantity ≤ c.criticalLowThreshold →
      countLowStock (((stepOutward now uid uname r)^[N]) ([c], store)).2 =
        countLowStock store + N) ∧
    (∀ (uid2 uname2 reason project : String) (comps : List Component)
      (store : List Notification) (updates : List BulkItem),
      (bulkUpdateRoute now uid2 uname2 reason project comps store updates).2 = store) := by
  have hv : ¬(r.quantity < 1 ∨ r.reason = "" ∨ r.project = "") := by
    push_neg
    exact ⟨by omega, hv2, hv3⟩
  refine ⟨?_, ?_, fun _ _ _ _ _ _ _ => rfl⟩
  · intro comps store c hfind hq hlow
    refine ⟨postOutward_low now uid uname comps store r c hv hfind hq hlow, ?_⟩
    rw [countLowStock_append, countLowStock_append, countLowStock_stockMovement,
      countLowStock_lowNotif]
  · intro c store N hid hact hNq hlow
    exact stepOutward_count now uid uname r hv1 hv2 hv3 N c store hid hact hNq hlow

/-- Witness for C10: draining two units one at a time from the 10-unit,
threshold-9 component creates two low-stock notifications from an empty
store, and a bulk update leaves the store untouched. -/
theorem outward_low_stock_no_dedup_witness :
    (1 ≤ drainRequest.quantity ∧ drainRequest.reason ≠ "" ∧
      drainRequest.project ≠ "" ∧ drainRequest.componentId = drainComponent.id ∧
      drainComponent.isActive = true ∧
      ((2 : Nat) : Int) * drainRequest.quantity ≤ drainComponent.quantity ∧
      drainComponent.quantity - drainRequest.quantity ≤
        drainComponent.criticalLowThreshold) ∧
    countLowStock (((stepOutward 0 "u-1" "Alice" drainRequest)^[2])
        ([drainComponent], [])).2 = countLowStock [] + 2 ∧
    (bulkUpdateRoute 0 "u-1" "Alice" "adjust" "alpha" [sampleComponent] []
      [okBulkItem]).2 = [] :=
  ⟨⟨by decide, by decide, by decide, by decide, by decide, by decide, by decide⟩,
    (outward_low_stock_no_dedup 0 "u-1" "Alice" drainRequest (by decide)
        (by decide) (by decide)).2.1 drainComponent [] 2 (by decide) (by decide)
      (by decide) (by decide),
    (outward_low_stock_no_dedup 0 "u-1" "Alice" drainRequest (by decide)
        (by decide) (by decide)).2.2 "u-1" "Alice" "adjust" "alpha"
      [sampleComponent] [] [okBulkItem]⟩

end LIMS
